import Mathlib

/-!
Verification of the personal-trainer assistant against its specification.

The definitions below are a shallow embedding of the Python sources:
  scripts/exercise_library.py   (ExerciseLibrary)
  scripts/workout_generator.py  (WorkoutGenerator)
  scripts/progress_tracker.py   (ProgressTracker)
Python dicts with a fixed key set become structures; dicts used as maps
become ordered association lists (insertion order preserved, as in
Python 3.7+); absent dictionary keys become `Option` fields; Python
numbers in workout logs become `Int` (weights, reps, sets) or `ℚ`
(scores); failure dictionaries carrying an `error` key become `none`.
Methods that assign to `self` state are embedded in state-passing style,
returning the new state alongside their result.
-/

/-! ### String helpers (Python `str.lower`, `str.replace`, `in`) -/

/-- Python `s.lower()` (the data here is ASCII). -/
def lowerStr (s : String) : String := String.mk (s.data.map Char.toLower)

/-- Does `needle` occur at the front of `hay`? -/
def charsFront : List Char → List Char → Bool
  | [], _ => true
  | _ :: _, [] => false
  | n :: ns, h :: hs => n = h && charsFront ns hs

/-- Python `needle in hay` on strings: contiguous-substring test. -/
def charsContain (hay needle : List Char) : Bool :=
  match hay with
  | [] => needle.isEmpty
  | _ :: t => charsFront needle hay || charsContain t needle

/-- Python `needle in hay` for `String`. -/
def strIncludes (hay needle : String) : Bool := charsContain hay.data needle.data

/-- Lookup in an ordered association list (Python `d[k]` / `k in d`). -/
def dictGet {α : Type} (m : List (String × α)) (k : String) : Option α :=
  match m with
  | [] => none
  | kv :: rest => if kv.1 = k then some kv.2 else dictGet rest k

/-- Replacing the value stored at an existing key, keeping insertion order
(Python mutates the shared value object in place; the key set is unchanged). -/
def dictSet {α : Type} (m : List (String × α)) (k : String) (v : α) : List (String × α) :=
  m.map (fun kv => if kv.1 = k then (k, v) else kv)

/-! ### Exercise library (`scripts/exercise_library.py`) -/

/-- One value of the `ExerciseLibrary` database: a dict with keys
`name`, `primary_muscles`, `type`, `equipment`, `instructions`,
`form_cues`, `alternatives`. -/
structure ExRecord where
  name : String
  primary_muscles : List String
  type : String
  equipment : List String
  instructions : List String
  form_cues : List String
  alternatives : List String
deriving DecidableEq

/-- Source `ExerciseLibrary._build_exercise_database`, as an ordered association
list (Python dict insertion order). -/
def exercise_db : List (String × ExRecord) := [
  ("bench_press",
   { name := "Bench Press",
     primary_muscles := ["chest", "triceps", "front_delts"],
     type := "compound",
     equipment := ["barbell", "bench"],
     instructions := [
       "Lie on bench with eyes under the bar",
       "Grip bar slightly wider than shoulder width",
       "Unrack and position bar over chest",
       "Lower bar to mid-chest with control",
       "Press bar up and slightly back",
       "Lock out arms at top"],
     form_cues := [
       "Keep shoulder blades pinched together",
       "Maintain arch in lower back",
       "Keep feet flat on floor",
       "Elbows at 45-75 degree angle",
       "Touch chest, don't bounce"],
     alternatives := [
       "Dumbbell Bench Press",
       "Push-ups",
       "Machine Chest Press",
       "Floor Press"] }),
  ("incline_dumbbell_press",
   { name := "Incline Dumbbell Press",
     primary_muscles := ["upper_chest", "front_delts", "triceps"],
     type := "compound",
     equipment := ["dumbbells", "incline_bench"],
     instructions := [
       "Set bench to 30-45 degree incline",
       "Sit with dumbbells on thighs",
       "Kick dumbbells up as you lie back",
       "Press dumbbells up and together",
       "Lower with control to chest level",
       "Repeat for desired reps"],
     form_cues := [
       "Keep back flat against bench",
       "Don't let dumbbells drift too far apart",
       "Control the negative portion",
       "Full range of motion"],
     alternatives := [
       "Incline Barbell Press",
       "Low-to-High Cable Fly",
       "Incline Push-ups"] }),
  ("push_ups",
   { name := "Push-ups",
     primary_muscles := ["chest", "triceps", "front_delts"],
     type := "compound",
     equipment := ["bodyweight"],
     instructions := [
       "Start in plank position, hands shoulder-width apart",
       "Keep body in straight line from head to heels",
       "Lower chest toward floor",
       "Push back up to starting position",
       "Maintain core engagement throughout"],
     form_cues := [
       "Don't let hips sag or pike up",
       "Elbows at 45 degree angle",
       "Full lockout at top",
       "Chest touches floor at bottom"],
     alternatives := [
       "Knee Push-ups",
       "Incline Push-ups",
       "Diamond Push-ups",
       "Wide Push-ups"] }),
  ("barbell_row",
   { name := "Barbell Row",
     primary_muscles := ["lats", "rhomboids", "rear_delts", "biceps"],
     type := "compound",
     equipment := ["barbell"],
     instructions := [
       "Stand with feet shoulder-width apart",
       "Hinge at hips, back flat, chest up",
       "Grip bar slightly wider than shoulder width",
       "Pull bar to lower chest/upper abs",
       "Squeeze shoulder blades at top",
       "Lower with control"],
     form_cues := [
       "Keep back flat, don't round",
       "Lead with elbows",
       "Don't use momentum",
       "Torso angle ~45 degrees"],
     alternatives := [
       "Dumbbell Row",
       "Cable Row",
       "T-Bar Row",
       "Chest Supported Row"] }),
  ("pull_ups",
   { name := "Pull-ups",
     primary_muscles := ["lats", "biceps", "rear_delts"],
     type := "compound",
     equipment := ["pull_up_bar"],
     instructions := [
       "Grip bar slightly wider than shoulder width",
       "Hang with arms fully extended",
       "Pull yourself up until chin clears bar",
       "Lower with control to full extension",
       "Avoid swinging or kipping"],
     form_cues := [
       "Initiate with lats, not arms",
       "Keep core engaged",
       "Shoulders down and back",
       "Full range of motion"],
     alternatives := [
       "Lat Pulldown",
       "Assisted Pull-ups",
       "Negative Pull-ups",
       "Inverted Rows"] }),
  ("lat_pulldown",
   { name := "Lat Pulldown",
     primary_muscles := ["lats", "biceps", "rear_delts"],
     type := "compound",
     equipment := ["cable_machine"],
     instructions := [
       "Sit with thighs secured under pads",
       "Grip bar wider than shoulder width",
       "Pull bar down to upper chest",
       "Squeeze lats at bottom",
       "Control the weight back up"],
     form_cues := [
       "Don't lean back excessively",
       "Pull elbows down and back",
       "Keep chest up",
       "Full stretch at top"],
     alternatives := [
       "Pull-ups",
       "Close Grip Pulldown",
       "Straight Arm Pulldown"] }),
  ("squat",
   { name := "Squat",
     primary_muscles := ["quads", "glutes", "hamstrings", "core"],
     type := "compound",
     equipment := ["barbell", "squat_rack"],
     instructions := [
       "Position bar on upper back (high bar) or rear delts (low bar)",
       "Unrack and step back, feet shoulder-width apart",
       "Brace core and initiate by pushing hips back",
       "Descend until hip crease below knee",
       "Drive through feet to stand",
       "Lock out hips and knees at top"],
     form_cues := [
       "Keep chest up and back flat",
       "Knees track over toes",
       "Weight in mid-foot/heels",
       "Don't let knees cave in",
       "Breathe and brace each rep"],
     alternatives := [
       "Goblet Squat",
       "Front Squat",
       "Leg Press",
       "Bulgarian Split Squat",
       "Box Squat"] }),
  ("deadlift",
   { name := "Deadlift",
     primary_muscles := ["hamstrings", "glutes", "lower_back", "traps"],
     type := "compound",
     equipment := ["barbell"],
     instructions := [
       "Stand with feet hip-width, bar over mid-foot",
       "Hinge and grip bar just outside legs",
       "Drop hips, chest up, back flat",
       "Drive through floor, keeping bar close",
       "Lock out hips and knees together",
       "Reverse the movement to lower"],
     form_cues := [
       "Bar stays close to body entire lift",
       "Don't round lower back",
       "Push floor away with legs",
       "Lock out by squeezing glutes",
       "Don't hyperextend at top"],
     alternatives := [
       "Romanian Deadlift",
       "Trap Bar Deadlift",
       "Sumo Deadlift",
       "Hip Thrust"] }),
  ("romanian_deadlift",
   { name := "Romanian Deadlift",
     primary_muscles := ["hamstrings", "glutes", "lower_back"],
     type := "compound",
     equipment := ["barbell", "dumbbells"],
     instructions := [
       "Stand with feet hip-width, holding bar",
       "Push hips back while keeping knees slightly bent",
       "Lower bar along thighs until hamstring stretch",
       "Keep back flat throughout",
       "Drive hips forward to return to start"],
     form_cues := [
       "Hinge at hips, not waist",
       "Bar stays close to legs",
       "Feel stretch in hamstrings",
       "Don't round back",
       "Squeeze glutes at top"],
     alternatives := [
       "Stiff Leg Deadlift",
       "Single Leg RDL",
       "Good Morning",
       "Cable Pull Through"] }),
  ("leg_press",
   { name := "Leg Press",
     primary_muscles := ["quads", "glutes", "hamstrings"],
     type := "compound",
     equipment := ["leg_press_machine"],
     instructions := [
       "Sit in machine with back flat against pad",
       "Place feet shoulder-width on platform",
       "Release safety and lower weight",
       "Lower until knees at 90 degrees",
       "Press through feet to extend legs",
       "Don't lock knees completely"],
     form_cues := [
       "Keep lower back pressed into pad",
       "Don't let knees cave in",
       "Control the negative",
       "Full range of motion"],
     alternatives := [
       "Squat",
       "Hack Squat",
       "Bulgarian Split Squat"] }),
  ("overhead_press",
   { name := "Overhead Press",
     primary_muscles := ["front_delts", "side_delts", "triceps"],
     type := "compound",
     equipment := ["barbell"],
     instructions := [
       "Grip bar just outside shoulder width",
       "Start with bar at shoulder level",
       "Brace core and press bar overhead",
       "Lock out arms at top",
       "Lower bar with control to shoulders"],
     form_cues := [
       "Keep core tight, don't lean back",
       "Press bar in straight line",
       "Move head back slightly as bar passes",
       "Full lockout at top"],
     alternatives := [
       "Dumbbell Shoulder Press",
       "Arnold Press",
       "Machine Shoulder Press",
       "Landmine Press"] }),
  ("lateral_raise",
   { name := "Lateral Raise",
     primary_muscles := ["side_delts"],
     type := "isolation",
     equipment := ["dumbbells"],
     instructions := [
       "Stand with dumbbells at sides",
       "Slight bend in elbows",
       "Raise arms out to sides until shoulder height",
       "Pause briefly at top",
       "Lower with control"],
     form_cues := [
       "Lead with elbows, not hands",
       "Don't swing or use momentum",
       "Slight forward lean okay",
       "Pinkies up at top optional"],
     alternatives := [
       "Cable Lateral Raise",
       "Machine Lateral Raise",
       "Leaning Lateral Raise"] }),
  ("bicep_curl",
   { name := "Bicep Curl",
     primary_muscles := ["biceps"],
     type := "isolation",
     equipment := ["dumbbells", "barbell"],
     instructions := [
       "Stand with arms at sides, palms forward",
       "Keep elbows at sides throughout",
       "Curl weight up toward shoulders",
       "Squeeze biceps at top",
       "Lower with control"],
     form_cues := [
       "Don't swing body",
       "Keep elbows stationary",
       "Full range of motion",
       "Control the negative"],
     alternatives := [
       "Hammer Curl",
       "Preacher Curl",
       "Cable Curl",
       "Incline Curl"] }),
  ("tricep_pushdown",
   { name := "Tricep Pushdown",
     primary_muscles := ["triceps"],
     type := "isolation",
     equipment := ["cable_machine"],
     instructions := [
       "Stand facing cable machine",
       "Grip rope or bar attachment",
       "Keep elbows at sides",
       "Push down until arms fully extended",
       "Squeeze triceps at bottom",
       "Control the return"],
     form_cues := [
       "Don't let elbows flare",
       "Keep torso upright",
       "Full extension at bottom",
       "Don't use momentum"],
     alternatives := [
       "Skull Crushers",
       "Overhead Extension",
       "Dips",
       "Close Grip Bench"] }),
  ("plank",
   { name := "Plank",
     primary_muscles := ["core", "shoulders"],
     type := "core",
     equipment := ["bodyweight"],
     instructions := [
       "Start in push-up position on forearms",
       "Keep body in straight line",
       "Engage core and glutes",
       "Hold position for prescribed time",
       "Breathe normally throughout"],
     form_cues := [
       "Don't let hips sag or pike",
       "Keep neck neutral",
       "Squeeze everything tight",
       "Quality over duration"],
     alternatives := [
       "Side Plank",
       "Dead Bug",
       "Bird Dog",
       "Hollow Hold"] }),
  ("face_pulls",
   { name := "Face Pulls",
     primary_muscles := ["rear_delts", "rhomboids", "external_rotators"],
     type := "isolation",
     equipment := ["cable_machine", "rope"],
     instructions := [
       "Set cable at face height",
       "Grip rope with thumbs pointing back",
       "Pull toward face, separating hands",
       "Externally rotate at end of movement",
       "Squeeze shoulder blades together",
       "Control return"],
     form_cues := [
       "Lead with elbows high",
       "Pull apart, not just back",
       "Keep chest up",
       "Don't lean back excessively"],
     alternatives := [
       "Reverse Fly",
       "Band Pull Aparts",
       "Rear Delt Fly Machine"] }),
  ("calf_raises",
   { name := "Calf Raises",
     primary_muscles := ["calves"],
     type := "isolation",
     equipment := ["calf_machine", "dumbbells"],
     instructions := [
       "Position balls of feet on edge",
       "Lower heels for full stretch",
       "Push up onto toes as high as possible",
       "Pause and squeeze at top",
       "Lower with control"],
     form_cues := [
       "Full range of motion",
       "Don't bounce at bottom",
       "Pause at top",
       "Straight knees for gastrocnemius"],
     alternatives := [
       "Seated Calf Raise",
       "Donkey Calf Raise",
       "Single Leg Calf Raise"] }),
  ("leg_curl",
   { name := "Leg Curl",
     primary_muscles := ["hamstrings"],
     type := "isolation",
     equipment := ["leg_curl_machine"],
     instructions := [
       "Lie face down or sit in machine",
       "Position pad above heels",
       "Curl legs toward glutes",
       "Squeeze hamstrings at top",
       "Lower with control"],
     form_cues := [
       "Don't lift hips off pad",
       "Full range of motion",
       "Control the negative",
       "Point toes for extra contraction"],
     alternatives := [
       "Nordic Curl",
       "Swiss Ball Curl",
       "Slider Curl",
       "Romanian Deadlift"] })]

/-- Normalization used by `ExerciseLibrary.get_exercise`:
`name.lower().replace(' ', '_').replace('-', '_')`.  Each space and each
hyphen is replaced one-for-one by an underscore; consecutive separators
are NOT collapsed. -/
def normalize_name (s : String) : String :=
  String.mk ((((s.data.map Char.toLower).map (fun c => if c = ' ' then '_' else c)).map
    (fun c => if c = '-' then '_' else c)))

/-- Source `ExerciseLibrary.get_exercise`: exact normalized key match, then the
first table entry (in insertion order) whose key contains the normalized
input or is contained in it; the Python error dict becomes `none`. -/
def get_exercise (name : String) : Option ExRecord :=
  match dictGet exercise_db (normalize_name name) with
  | some ex => some ex
  | none =>
    match exercise_db.find? (fun kv =>
        strIncludes kv.1 (normalize_name name) || strIncludes (normalize_name name) kv.1) with
    | some kv => some kv.2
    | none => none

/-- The three equipment keywords of `get_alternatives`. -/
def equipment_keywords : List String := ["dumbbell", "bodyweight", "band"]

/-- Python `any(eq in alt.lower() for eq in ['dumbbell', 'bodyweight', 'band'])`. -/
def equipment_match (alt : String) : Bool :=
  equipment_keywords.any (fun eq => strIncludes (lowerStr alt) eq)

/-- Source `ExerciseLibrary.get_alternatives` (the Python default for `reason`
is the string `general`). -/
def get_alternatives (exercise_name : String) (reason : String) : List String :=
  match get_exercise exercise_name with
  | none => []
  | some ex =>
    if reason = "equipment" then ex.alternatives.filter equipment_match
    else ex.alternatives

/-! ### Workout generator (`scripts/workout_generator.py`) -/

/-- One exercise slot of a session template.  The template literals carry
only `name`, `type`, `muscle`; `_apply_rep_scheme` later adds the
`sets`, `reps`, `rest` keys, so those are `Option` fields absent
(`none`) in the literals. -/
structure WExercise where
  name : String
  type : String
  muscle : String
  sets : Option Nat := none
  reps : Option String := none
  rest : Option String := none
deriving DecidableEq

/-- A session of a split template: `name` plus ordered exercise slots. -/
structure WSession where
  name : String
  exercises : List WExercise
deriving DecidableEq

/-- A split template: `name`, `days_per_week`, ordered sessions. -/
structure Template where
  name : String
  days_per_week : Nat
  sessions : List WSession
deriving DecidableEq

/-- Source `WorkoutGenerator._get_full_body_template`. -/
def full_body_template : Template :=
  { name := "Full Body",
    days_per_week := 3,
    sessions := [
      { name := "Full Body A",
        exercises := [
          { name := "Squat", type := "compound", muscle := "legs" },
          { name := "Bench Press", type := "compound", muscle := "chest" },
          { name := "Barbell Row", type := "compound", muscle := "back" },
          { name := "Overhead Press", type := "compound", muscle := "shoulders" },
          { name := "Plank", type := "core", muscle := "core" }] },
      { name := "Full Body B",
        exercises := [
          { name := "Deadlift", type := "compound", muscle := "legs" },
          { name := "Incline Press", type := "compound", muscle := "chest" },
          { name := "Pull-ups", type := "compound", muscle := "back" },
          { name := "Dumbbell Lunges", type := "compound", muscle := "legs" },
          { name := "Face Pulls", type := "isolation", muscle := "shoulders" }] }] }

/-- Source `WorkoutGenerator._get_upper_lower_template`. -/
def upper_lower_template : Template :=
  { name := "Upper/Lower",
    days_per_week := 4,
    sessions := [
      { name := "Upper A",
        exercises := [
          { name := "Bench Press", type := "compound", muscle := "chest" },
          { name := "Barbell Row", type := "compound", muscle := "back" },
          { name := "Overhead Press", type := "compound", muscle := "shoulders" },
          { name := "Pull-ups", type := "compound", muscle := "back" },
          { name := "Face Pulls", type := "isolation", muscle := "shoulders" },
          { name := "Tricep Pushdown", type := "isolation", muscle := "triceps" },
          { name := "Bicep Curl", type := "isolation", muscle := "biceps" }] },
      { name := "Lower A",
        exercises := [
          { name := "Squat", type := "compound", muscle := "quads" },
          { name := "Romanian Deadlift", type := "compound", muscle := "hamstrings" },
          { name := "Leg Press", type := "compound", muscle := "quads" },
          { name := "Leg Curl", type := "isolation", muscle := "hamstrings" },
          { name := "Calf Raises", type := "isolation", muscle := "calves" }] },
      { name := "Upper B",
        exercises := [
          { name := "Incline Dumbbell Press", type := "compound", muscle := "chest" },
          { name := "Cable Row", type := "compound", muscle := "back" },
          { name := "Dumbbell Shoulder Press", type := "compound", muscle := "shoulders" },
          { name := "Lat Pulldown", type := "compound", muscle := "back" },
          { name := "Lateral Raises", type := "isolation", muscle := "shoulders" },
          { name := "Skull Crushers", type := "isolation", muscle := "triceps" },
          { name := "Hammer Curl", type := "isolation", muscle := "biceps" }] },
      { name := "Lower B",
        exercises := [
          { name := "Deadlift", type := "compound", muscle := "posterior" },
          { name := "Front Squat", type := "compound", muscle := "quads" },
          { name := "Walking Lunges", type := "compound", muscle := "legs" },
          { name := "Leg Extension", type := "isolation", muscle := "quads" },
          { name := "Seated Calf Raise", type := "isolation", muscle := "calves" }] }] }

/-- Source `WorkoutGenerator._get_ppl_template`. -/
def ppl_template : Template :=
  { name := "Push/Pull/Legs",
    days_per_week := 6,
    sessions := [
      { name := "Push",
        exercises := [
          { name := "Bench Press", type := "compound", muscle := "chest" },
          { name := "Incline Dumbbell Press", type := "compound", muscle := "chest" },
          { name := "Overhead Press", type := "compound", muscle := "shoulders" },
          { name := "Cable Fly", type := "isolation", muscle := "chest" },
          { name := "Lateral Raises", type := "isolation", muscle := "shoulders" },
          { name := "Tricep Pushdown", type := "isolation", muscle := "triceps" },
          { name := "Overhead Tricep Extension", type := "isolation", muscle := "triceps" }] },
      { name := "Pull",
        exercises := [
          { name := "Barbell Row", type := "compound", muscle := "back" },
          { name := "Pull-ups", type := "compound", muscle := "back" },
          { name := "Seated Cable Row", type := "compound", muscle := "back" },
          { name := "Face Pulls", type := "isolation", muscle := "rear_delts" },
          { name := "Barbell Curl", type := "isolation", muscle := "biceps" },
          { name := "Hammer Curl", type := "isolation", muscle := "biceps" }] },
      { name := "Legs",
        exercises := [
          { name := "Squat", type := "compound", muscle := "quads" },
          { name := "Romanian Deadlift", type := "compound", muscle := "hamstrings" },
          { name := "Leg Press", type := "compound", muscle := "quads" },
          { name := "Leg Curl", type := "isolation", muscle := "hamstrings" },
          { name := "Leg Extension", type := "isolation", muscle := "quads" },
          { name := "Calf Raises", type := "isolation", muscle := "calves" }] }] }

/-- Source `WorkoutGenerator._get_upper_lower_ppl_template`: first two
upper/lower sessions followed by the three PPL sessions. -/
def upper_lower_ppl_template : Template :=
  { name := "Upper/Lower + PPL",
    days_per_week := 5,
    sessions := upper_lower_template.sessions.take 2 ++ ppl_template.sessions }

/-- The generator's mutable `self.splits` dict, as built by `__init__`. -/
def init_splits : List (String × Template) := [
  ("full_body", full_body_template),
  ("upper_lower", upper_lower_template),
  ("ppl", ppl_template),
  ("upper_lower_ppl", upper_lower_ppl_template)]

/-- A goal's rep scheme: `sets`, `reps`, `rest`. -/
structure RepScheme where
  sets : Nat
  reps : String
  rest : String
deriving DecidableEq

/-- Source `WorkoutGenerator.rep_schemes`. -/
def rep_schemes : List (String × RepScheme) := [
  ("strength", { sets := 4, reps := "4-6", rest := "3-5 min" }),
  ("muscle_building", { sets := 3, reps := "8-12", rest := "60-90 sec" }),
  ("fat_loss", { sets := 3, reps := "12-15", rest := "30-60 sec" }),
  ("endurance", { sets := 2, reps := "15-20", rest := "30 sec" })]

/-- Source `self.rep_schemes.get(goal, self.rep_schemes['muscle_building'])`. -/
def rep_scheme_for (goal : String) : RepScheme :=
  (dictGet rep_schemes goal).getD { sets := 3, reps := "8-12", rest := "60-90 sec" }

/-- Source `WorkoutGenerator._adjust_for_experience`: beginners keep only the
first five slots of every session (positional truncation); `advanced`
and all other levels leave the template unchanged. -/
def adjust_for_experience (t : Template) (level : String) : Template :=
  if level = "beginner" then
    { t with sessions := t.sessions.map (fun s => { s with exercises := s.exercises.take 5 }) }
  else t

/-- Renaming every slot whose current name is a key of `subs` (the loop
body shared by the equipment and limitation adjustments). -/
def substitute_names (t : Template) (subs : List (String × String)) : Template :=
  { t with sessions := t.sessions.map (fun s =>
      { s with exercises := s.exercises.map (fun e =>
          match dictGet subs e.name with
          | some n => { e with name := n }
          | none => e) }) }

/-- The `bodyweight` substitution table of `_adjust_for_equipment`. -/
def bodyweight_subs : List (String × String) := [
  ("Bench Press", "Push-ups"),
  ("Barbell Row", "Inverted Row"),
  ("Squat", "Bodyweight Squat"),
  ("Deadlift", "Single Leg RDL"),
  ("Overhead Press", "Pike Push-ups"),
  ("Leg Press", "Bulgarian Split Squat"),
  ("Lat Pulldown", "Pull-ups"),
  ("Cable Row", "Inverted Row"),
  ("Leg Curl", "Nordic Curl"),
  ("Leg Extension", "Sissy Squat")]

/-- The `home_gym` substitution table of `_adjust_for_equipment`. -/
def home_gym_subs : List (String × String) := [
  ("Leg Press", "Goblet Squat"),
  ("Lat Pulldown", "Pull-ups"),
  ("Cable Row", "Dumbbell Row"),
  ("Cable Fly", "Dumbbell Fly"),
  ("Leg Curl", "Dumbbell Leg Curl"),
  ("Leg Extension", "Dumbbell Step-up")]

/-- Source `WorkoutGenerator._adjust_for_equipment`. -/
def adjust_for_equipment (t : Template) (equipment : String) : Template :=
  if equipment = "bodyweight" then substitute_names t bodyweight_subs
  else if equipment = "home_gym" then substitute_names t home_gym_subs
  else t

/-- The per-limitation substitution tables of `_adjust_for_limitations`. -/
def limitation_subs (limitation : String) : Option (List (String × String)) :=
  if limitation = "lower_back" then some [
    ("Deadlift", "Hip Thrust"),
    ("Barbell Row", "Chest Supported Row"),
    ("Squat", "Leg Press")]
  else if limitation = "knee" then some [
    ("Squat", "Box Squat"),
    ("Lunges", "Step-ups"),
    ("Leg Extension", "Terminal Knee Extension")]
  else if limitation = "shoulder" then some [
    ("Overhead Press", "Landmine Press"),
    ("Bench Press", "Floor Press"),
    ("Lateral Raises", "Cable Lateral Raise")]
  else none

/-- Source `WorkoutGenerator._adjust_for_limitations`: tables applied in the
order the limitations are listed. -/
def adjust_for_limitations (t : Template) (limitations : List String) : Template :=
  limitations.foldl (fun acc limitation =>
    match limitation_subs limitation with
    | some subs => substitute_names acc subs
    | none => acc) t

/-- Source `WorkoutGenerator._apply_rep_scheme`: compound slots receive the
scheme's sets/reps/rest; every other slot receives the scheme's set
count with reps `10-15` and rest `60 sec`. -/
def apply_rep_scheme (t : Template) (scheme : RepScheme) : Template :=
  { t with sessions := t.sessions.map (fun s =>
      { s with exercises := s.exercises.map (fun e =>
          if e.type = "compound" then
            { e with sets := some scheme.sets, reps := some scheme.reps, rest := some scheme.rest }
          else
            { e with sets := some scheme.sets, reps := some "10-15", rest := some "60 sec" }) }) }

/-- Source `WorkoutGenerator._get_week_notes`. -/
def get_week_notes (week_num total_weeks : Nat) : String :=
  if week_num = 1 then
    "Focus on form. Use moderate weights to learn movements."
  else if week_num = total_weeks then
    "Final week! Push hard but consider a deload after this."
  else if week_num % 4 = 0 then
    "Deload week if needed. Reduce volume by 40%."
  else
    "Progressive overload. Try to beat last week's numbers."

/-- One generated week: `week_number`, `sessions`, `notes`. -/
structure Week where
  week_number : Nat
  sessions : List WSession
  notes : String
deriving DecidableEq

/-- A generated plan. -/
structure Plan where
  split_type : String
  goal : String
  experience_level : String
  weeks : List Week
deriving DecidableEq

/-- Unreachable default for the template lookup (the Python expression
`self.splits['full_body']` always finds the key in the state built by
`__init__`, so this value is never produced there). -/
def empty_template : Template := { name := "", days_per_week := 0, sessions := [] }

/-- Source `WorkoutGenerator.generate_plan`, in state-passing style.  The Python
method fetches `self.splits.get(split_type, self.splits['full_body'])`
and then adjusts that very dict in place (`session['exercises'] = ...`,
`exercise['name'] = ...`, `exercise['sets'] = ...`), so after the call
the stored template for the used key has become the fully adjusted
template; the second component of the result is the new `self.splits`. -/
def generate_plan (splits : List (String × Template))
    (split_type experience_level goal equipment : String)
    (weeks : Nat) (limitations : List String) :
    Plan × List (String × Template) :=
  let template0 := (dictGet splits split_type).getD
    ((dictGet splits "full_body").getD empty_template)
  let t1 := adjust_for_experience template0 experience_level
  let t2 := adjust_for_equipment t1 equipment
  let t3 := adjust_for_limitations t2 limitations
  let rep_scheme := rep_scheme_for goal
  let t4 := apply_rep_scheme t3 rep_scheme
  let plan : Plan :=
    { split_type := split_type,
      goal := goal,
      experience_level := experience_level,
      weeks := (List.range weeks).map (fun i =>
        { week_number := i + 1,
          sessions := t4.sessions,
          notes := get_week_notes (i + 1) weeks }) }
  let mutated_key := if (dictGet splits split_type).isSome then split_type else "full_body"
  (plan, dictSet splits mutated_key t4)

/-! ### Calendar dates and ISO weeks

The workout log stores `datetime.now().isoformat()` timestamps; the
analytics only ever use the calendar date part (`date.year`,
`date.isocalendar()[1]`, ordinal differences in days), so a log
timestamp is embedded as a proleptic-Gregorian calendar date. -/

/-- A calendar date (proleptic Gregorian, as used by Python `datetime`). -/
structure Date where
  year : Nat
  month : Nat
  day : Nat
deriving DecidableEq

/-- Gregorian leap-year rule. -/
def isLeapYear (y : Nat) : Bool := y % 4 = 0 && (y % 100 != 0 || y % 400 = 0)

/-- Length of month `m` (1-12) in year `y`. -/
def daysInMonth (y m : Nat) : Nat :=
  if m = 2 then (if isLeapYear y then 29 else 28)
  else if m = 4 || m = 6 || m = 9 || m = 11 then 30
  else 31

/-- Day of the year, 1-based (Python `date.timetuple().tm_yday`). -/
def dayOfYear (d : Date) : Nat :=
  (List.range (d.month - 1)).foldl (fun acc i => acc + daysInMonth d.year (i + 1)) 0 + d.day

/-- Days in all years strictly before year `y` (proleptic Gregorian). -/
def daysBeforeYear (y : Nat) : Nat :=
  365 * (y - 1) + (y - 1) / 4 - (y - 1) / 100 + (y - 1) / 400

/-- Python `date.toordinal()`: day 1 is January 1 of year 1. -/
def ordinalDate (d : Date) : Nat := daysBeforeYear d.year + dayOfYear d

/-- ISO weekday, Monday = 1 .. Sunday = 7 (January 1 of year 1 is a
Monday in the proleptic Gregorian calendar, as in Python). -/
def isoWeekday (d : Date) : Nat := (ordinalDate d - 1) % 7 + 1

/-- Number of ISO weeks (52 or 53) in ISO year `y`: 53 iff January 1
falls on Thursday, or on Wednesday in a leap year. -/
def weeksInIsoYear (y : Nat) : Nat :=
  let jan1 := isoWeekday { year := y, month := 1, day := 1 }
  if jan1 = 4 || (isLeapYear y && jan1 = 3) then 53 else 52

/-- ISO week number of a date, `date.isocalendar()[1]` in Python. -/
def isoWeek (d : Date) : Nat :=
  let w := (dayOfYear d + 10 - isoWeekday d) / 7
  if w = 0 then weeksInIsoYear (d.year - 1)
  else if w = 53 && weeksInIsoYear d.year = 52 then 1
  else w

/-- ISO year of a date, `date.isocalendar()[0]` in Python. -/
def isoYear (d : Date) : Nat :=
  let w := (dayOfYear d + 10 - isoWeekday d) / 7
  if w = 0 then d.year - 1
  else if w = 53 && weeksInIsoYear d.year = 52 then d.year + 1
  else d.year

/-! ### Progress tracker (`scripts/progress_tracker.py`)

The tracker's only mutable state is `self.workouts`, the ordered log
list; it is embedded as a `List Workout` threaded explicitly.  Weights,
reps and set counts are embedded as `Int` (`Option` for absent keys,
mirroring the `.get(key, default)` fallbacks at each use site). -/

/-- One exercise dict inside a logged workout.  Callers write either an
`exercise` or a `name` key, hence both optional fields. -/
structure ExEntry where
  exercise : Option String := none
  name : Option String := none
  sets : Option Int := none
  reps : Option Int := none
  weight : Option Int := none
deriving DecidableEq

/-- One logged workout: timestamp date, exercises, optional notes. -/
structure Workout where
  date : Date
  exercises : List ExEntry
  notes : Option String := none
deriving DecidableEq

/-- Python `exercise.get('exercise', exercise.get('name', ''))`. -/
def entryName (e : ExEntry) : String := e.exercise.getD (e.name.getD "")

/-- Source `ProgressTracker._get_exercise_history`: all entries across the log
whose name matches case-insensitively, in log order, each paired with
its workout's date (the code copies the entry and adds a `date` key). -/
def get_exercise_history (workouts : List Workout) (exercise_name : String) :
    List (Date × ExEntry) :=
  workouts.flatMap (fun w =>
    (w.exercises.filter (fun e => lowerStr (entryName e) = lowerStr exercise_name)).map
      (fun e => (w.date, e)))

/-- Fallback element for the (guarded) indexing `history[-2]`. -/
def dummyHistoryEntry : Date × ExEntry := ({ year := 0, month := 0, day := 0 }, {})

/-- The insight messages contributed by one exercise of a fresh log
entry (the loop body of `_generate_workout_insights`): the history is
taken over the log that already contains the new workout, `prev` is
`history[-2]`, and `curr` is the entry itself. -/
def exercise_insights (workouts : List Workout) (e : ExEntry) : List String :=
  let exercise_name := entryName e
  let history := get_exercise_history workouts exercise_name
  if 2 ≤ history.length then
    let prev := (history.getD (history.length - 2) dummyHistoryEntry).2
    let prev_weight := prev.weight.getD 0
    let curr_weight := e.weight.getD 0
    (if prev_weight < curr_weight then
      ["PR on " ++ exercise_name ++ "! " ++ toString prev_weight ++ " -> " ++
        toString curr_weight]
     else []) ++
    (if curr_weight = prev_weight ∧ prev.reps.getD 0 < e.reps.getD 0 then
      ["Rep PR on " ++ exercise_name ++ "! " ++ toString (prev.reps.getD 0) ++ " -> " ++
        toString (e.reps.getD 0) ++ " reps"]
     else [])
  else []

/-- Source `ProgressTracker._generate_workout_insights`. -/
def generate_workout_insights (workouts : List Workout) (exercises : List ExEntry) :
    List String :=
  let insights := exercises.flatMap (exercise_insights workouts)
  if insights.isEmpty then ["Solid workout! Keep pushing."] else insights

/-- Result dictionary of `log_workout`. -/
structure LogResult where
  status : String
  workout_number : Nat
  exercises_logged : Nat
  insights : List String
deriving DecidableEq

/-- Source `ProgressTracker.log_workout`: appends the new workout to the log
(then persists it) and computes insights over the extended log. -/
def log_workout (workouts : List Workout) (exercises : List ExEntry)
    (date : Date) (notes : Option String) : List Workout × LogResult :=
  let workout : Workout := { date := date, exercises := exercises, notes := notes }
  let workouts2 := workouts ++ [workout]
  let insights := generate_workout_insights workouts2 exercises
  (workouts2,
   { status := "logged",
     workout_number := workouts2.length,
     exercises_logged := exercises.length,
     insights := insights })

/-- One element of the `entries` list built by `_get_exercise_report`
(`date`, `weight`, `reps`, `sets`, with the `.get(_, 0)` defaults). -/
structure RepEntry where
  date : Date
  weight : Int
  reps : Int
  sets : Int
deriving DecidableEq

/-- The `entries` accumulation loop of `_get_exercise_report`. -/
def collect_report_entries (exercise_name : String) (workouts : List Workout) :
    List RepEntry :=
  workouts.flatMap (fun w =>
    (w.exercises.filter (fun e => lowerStr (entryName e) = lowerStr exercise_name)).map
      (fun e =>
        { date := w.date,
          weight := e.weight.getD 0,
          reps := e.reps.getD 0,
          sets := e.sets.getD 0 }))

/-- Python `max(l)` for the nonempty lists this code applies it to;
the `[]` case realizes the `if weights else 0` fallbacks at use sites. -/
def maxIntList : List Int → Int
  | [] => 0
  | x :: xs => xs.foldl max x

/-- Python `min(l)`, analogously. -/
def minIntList : List Int → Int
  | [] => 0
  | x :: xs => xs.foldl min x

/-- The per-exercise report dict of `_get_exercise_report`. -/
structure ExerciseReport where
  total_sessions : Nat
  starting_weight : Int
  current_weight : Int
  max_weight : Int
  weight_gain : Int
  trend : String
  history : List RepEntry
deriving DecidableEq

/-- Source `ProgressTracker._get_exercise_report` on an (already
period-filtered) workout list; the `error` dict becomes `none`.  The
weight series keeps only truthy (nonzero) weights. -/
def get_exercise_report (exercise_name : String) (workouts : List Workout) :
    Option ExerciseReport :=
  let entries := collect_report_entries exercise_name workouts
  if entries.isEmpty then none
  else
    let weights := (entries.map (fun e => e.weight)).filter (fun w => w ≠ 0)
    some
      { total_sessions := entries.length,
        starting_weight := weights.headD 0,
        current_weight := weights.getLastD 0,
        max_weight := maxIntList weights,
        weight_gain := if 2 ≤ weights.length then weights.getLastD 0 - weights.headD 0 else 0,
        trend :=
          if 2 ≤ weights.length ∧ weights.headD 0 < weights.getLastD 0 then "improving"
          else "stable",
        history := entries }

/-- Incrementing a counter dict key (`defaultdict(int)` preserves first
insertion order). -/
def incrCount (m : List (String × Nat)) (k : String) : List (String × Nat) :=
  if (dictGet m k).isSome then
    m.map (fun kv => if kv.1 = k then (k, kv.2 + 1) else kv)
  else m ++ [(k, 1)]

/-- The `exercise_counts` loop of `_get_overall_summary`. -/
def exercise_counts (workouts : List Workout) : List (String × Nat) :=
  workouts.foldl (fun acc w =>
    w.exercises.foldl (fun acc e => incrCount acc (entryName e)) acc) []

/-- Stable insertion of a count pair into a descending-by-count list:
the new pair goes after every existing pair of count ≥ its own, which is
how Python's stable `sorted(..., key=count, reverse=True)` orders ties
(first encountered first). -/
def insertCountDesc (l : List (String × Nat)) (a : String × Nat) : List (String × Nat) :=
  match l with
  | [] => [a]
  | b :: t => if a.2 ≤ b.2 then b :: insertCountDesc t a else a :: b :: t

/-- Stable sort by count, descending. -/
def sortCountsDesc (l : List (String × Nat)) : List (String × Nat) :=
  l.foldl insertCountDesc []

/-- Chronological insertion of a date after all dates not later than it. -/
def insertDateAsc (acc : List Date) (d : Date) : List Date :=
  match acc with
  | [] => [d]
  | b :: t => if ordinalDate b ≤ ordinalDate d then b :: insertDateAsc t d else d :: b :: t

/-- Sorted ascending list of the log's calendar dates (Python sorts the
`date()` objects chronologically). -/
def sortDatesAsc (dates : List Date) : List Date :=
  dates.foldl insertDateAsc []

/-- Source `ProgressTracker._calculate_consistency` (0-100 score; averages are
exact rationals here, where Python uses floats). -/
def calculate_consistency (workouts : List Workout) : ℚ :=
  if workouts.isEmpty then 0
  else if workouts.length < 2 then 100
  else
    let dates := sortDatesAsc (workouts.map (fun w => w.date))
    let gaps : List ℚ := (dates.zip dates.tail).map
      (fun ab => ((ordinalDate ab.2 : ℚ) - (ordinalDate ab.1 : ℚ)))
    let avg_gap := gaps.sum / gaps.length
    if avg_gap ≤ 3 then 100
    else if avg_gap ≤ 5 then 80
    else if avg_gap ≤ 7 then 60
    else max 0 (100 - avg_gap * 5)

/-- The summary dict of `_get_overall_summary`. -/
structure Summary where
  message : Option String := none
  workouts_completed : Option Nat := none
  unique_exercises : Option Nat := none
  most_frequent : Option (List (String × Nat)) := none
  consistency_score : Option ℚ := none
deriving DecidableEq

/-- Source `ProgressTracker._get_overall_summary`. -/
def get_overall_summary (workouts : List Workout) : Summary :=
  if workouts.isEmpty then { message := some "No workouts in this period" }
  else
    let counts := exercise_counts workouts
    { workouts_completed := some workouts.length,
      unique_exercises := some counts.length,
      most_frequent := some ((sortCountsDesc counts).take 5),
      consistency_score := some (calculate_consistency workouts) }

/-- Source `period_days.get(period, 30)` in `get_report`. -/
def period_days (period : String) : Nat :=
  if period = "week" then 7
  else if period = "month" then 30
  else if period = "quarter" then 90
  else if period = "year" then 365
  else 30

/-- The report dict of `get_report`; the start and end timestamps are
kept as day ordinals. -/
structure Report where
  period : String
  total_workouts : Nat
  start_ordinal : Nat
  end_ordinal : Nat
  exercise : Option String := none
  exercise_data : Option (Option ExerciseReport) := none
  summary : Option Summary := none
deriving DecidableEq

/-- Source `ProgressTracker.get_report` (`now` is the current date; the period
filter keeps workouts dated within the last `period_days` days). -/
def get_report (now : Date) (exercise : Option String) (period : String)
    (workouts : List Workout) : Report :=
  let days := period_days period
  let start_ordinal := ordinalDate now - days
  let period_workouts := workouts.filter (fun w => start_ordinal ≤ ordinalDate w.date)
  match exercise with
  | some ex =>
    { period := period,
      total_workouts := period_workouts.length,
      start_ordinal := start_ordinal,
      end_ordinal := ordinalDate now,
      exercise := some ex,
      exercise_data := some (get_exercise_report ex period_workouts) }
  | none =>
    { period := period,
      total_workouts := period_workouts.length,
      start_ordinal := start_ordinal,
      end_ordinal := ordinalDate now,
      summary := some (get_overall_summary period_workouts) }

/-- The fixed recommendation list returned when a plateau is flagged. -/
def plateau_recommendations : List String := [
  "Consider a deload week (reduce weight by 40%)",
  "Try changing rep range (if doing 8-12, try 4-6)",
  "Add a variation of this exercise",
  "Increase training frequency for this muscle",
  "Check your nutrition and sleep",
  "Try different tempo (slow negatives)"]

/-- The result dict of `detect_plateau`. -/
structure PlateauResult where
  plateau_detected : Bool
  sessions_analyzed : Option Nat := none
  weight_range : Option Int := none
  recent_weights : Option (List Int) := none
  recommendations : Option (List String) := none
  message : Option String := none
deriving DecidableEq

/-- Source `ProgressTracker.detect_plateau`: needs at least 4 matching
sessions; looks at the last 4 weights; plateau iff their range is ≤ 5. -/
def detect_plateau (workouts : List Workout) (exercise_name : String) : PlateauResult :=
  let history := get_exercise_history workouts exercise_name
  if history.length < 4 then
    { plateau_detected := false,
      message := some "Not enough data to detect plateau (need 4+ sessions)" }
  else
    let recent := history.drop (history.length - 4)
    let weights := recent.map (fun h => h.2.weight.getD 0)
    let weight_range := maxIntList weights - minIntList weights
    let is_plateau : Bool := weight_range ≤ 5
    { plateau_detected := is_plateau,
      sessions_analyzed := some recent.length,
      weight_range := some weight_range,
      recent_weights := some weights,
      recommendations := if is_plateau then some plateau_recommendations else none,
      message := if is_plateau then none else some "No plateau detected. Keep progressing!" }

/-- The `(year, week_num)` pair `get_consecutive_weeks` builds for one
workout: the CALENDAR year `date.year` paired with the ISO week
`date.isocalendar()[1]`. -/
def weekPair (d : Date) : Nat × Nat := (d.year, isoWeek d)

/-- Descending insertion for lexicographic pairs (the elements are
distinct after deduplication, so this reproduces Python's
`sorted(set_of_pairs, reverse=True)`). -/
def insertPairDesc (a : Nat × Nat) : List (Nat × Nat) → List (Nat × Nat)
  | [] => [a]
  | b :: t =>
    if b.1 < a.1 ∨ (a.1 = b.1 ∧ b.2 ≤ a.2) then a :: b :: t
    else b :: insertPairDesc a t

/-- Source `sorted(weeks, reverse=True)` on the deduplicated pair list. -/
def sortPairsDesc (l : List (Nat × Nat)) : List (Nat × Nat) :=
  match l with
  | [] => []
  | a :: t => insertPairDesc a (sortPairsDesc t)

/-- The streak loop of `get_consecutive_weeks`: starting from
`consecutive = 1`, each following pair extends the streak when it is in
the same year with week exactly one smaller, or one year earlier with
the later week being 1 and the earlier week ≥ 51; the first gap breaks. -/
def countStreak : Nat × Nat → List (Nat × Nat) → Nat
  | _, [] => 1
  | prev, curr :: rest =>
    if prev.1 = curr.1 ∧ prev.2 - curr.2 = 1 then 1 + countStreak curr rest
    else if prev.1 - curr.1 = 1 ∧ prev.2 = 1 ∧ 51 ≤ curr.2 then 1 + countStreak curr rest
    else 1

/-- Source `ProgressTracker.get_consecutive_weeks`. -/
def get_consecutive_weeks (workouts : List Workout) : Nat :=
  if workouts.isEmpty then 0
  else
    let weeks := ((workouts.map (fun w => weekPair w.date)).dedup)
    match sortPairsDesc weeks with
    | [] => 1
    | p :: rest => countStreak p rest

/-- Python `round(x, 1)` on the exact rational value (round half up;
the half-even behaviour of float rounding differs only at exact .05
boundaries and is immaterial to the claims, which never inspect this
value). -/
def roundTenths (q : ℚ) : ℚ := ((⌊q * 10 + 1 / 2⌋ : ℤ) : ℚ) / 10

/-- Source `ProgressTracker.estimate_fatigue` (day-granularity 14-day window). -/
def estimate_fatigue (now : Date) (workouts : List Workout) : ℚ :=
  if workouts.isEmpty then 1
  else
    let recent := workouts.filter (fun w => ordinalDate now - 14 ≤ ordinalDate w.date)
    if recent.isEmpty then 1
    else
      let workout_count : ℚ := recent.length
      let total_sets : ℚ :=
        ((recent.map (fun w => (w.exercises.map (fun e => e.sets.getD 3)).sum)).sum : ℤ)
      let workout_fatigue := min (workout_count / 2) 5
      let volume_fatigue := min (total_sets / 50) 5
      roundTenths (workout_fatigue + volume_fatigue)

/-- One personal-record value: `weight`, `reps`, `date`. -/
structure PRecord where
  weight : Int
  reps : Int
  date : Date
deriving DecidableEq

/-- Source `ProgressTracker.get_personal_records`: one pass over the log,
keeping the first strictly-heaviest entry seen per (case-sensitive)
exercise name, in first-encounter key order. -/
def get_personal_records (workouts : List Workout) : List (String × PRecord) :=
  workouts.foldl (fun records w =>
    w.exercises.foldl (fun records e =>
      let name := entryName e
      let weight := e.weight.getD 0
      match dictGet records name with
      | none => records ++ [(name, { weight := weight, reps := e.reps.getD 0, date := w.date })]
      | some r =>
        if r.weight < weight then
          dictSet records name { weight := weight, reps := e.reps.getD 0, date := w.date }
        else records) records) []

/-! #### State-passing wrappers

Each remaining `ProgressTracker` method reads `self.workouts` without
reassigning it and without calling any mutating operation on it (the
source copies entries before decorating them and sorts fresh lists), so
its state-passing embedding returns the log unchanged. -/

/-- Source `get_report` as a state transformer on the log. -/
def get_report_st (now : Date) (exercise : Option String) (period : String)
    (s : List Workout) : Report × List Workout :=
  (get_report now exercise period s, s)

/-- Source `detect_plateau` as a state transformer on the log. -/
def detect_plateau_st (exercise_name : String) (s : List Workout) :
    PlateauResult × List Workout :=
  (detect_plateau s exercise_name, s)

/-- Source `get_consecutive_weeks` as a state transformer on the log. -/
def get_consecutive_weeks_st (s : List Workout) : Nat × List Workout :=
  (get_consecutive_weeks s, s)

/-- Source `estimate_fatigue` as a state transformer on the log. -/
def estimate_fatigue_st (now : Date) (s : List Workout) : ℚ × List Workout :=
  (estimate_fatigue now s, s)

/-- Source `get_personal_records` as a state transformer on the log. -/
def get_personal_records_st (s : List Workout) :
    List (String × PRecord) × List Workout :=
  (get_personal_records s, s)

/-! ### Specification-side comparison functions

These definitions follow the wording of the specification claims; the
claim theorems compare them with the source embeddings above. -/

/-- The PR message format of the insight generator. -/
def pr_message (nm : String) (pw cw : Int) : String :=
  "PR on " ++ nm ++ "! " ++ toString pw ++ " -> " ++ toString cw

/-- The rep-PR message format of the insight generator. -/
def rep_pr_message (nm : String) (pr cr : Int) : String :=
  "Rep PR on " ++ nm ++ "! " ++ toString pr ++ " -> " ++ toString cr ++ " reps"

/-- Modelled from the claim wording for C7: an exercise of the new entry
contributes a PR message exactly when the new weight strictly exceeds
the previous (second-most-recent) data point of its case-insensitive
history, and a rep-PR message exactly when the weights are equal and the
rep count strictly grows; fewer than two data points contribute
nothing. -/
def exercise_insights_spec (workouts : List Workout) (e : ExEntry) : List String :=
  let nm := entryName e
  match (get_exercise_history workouts nm).reverse with
  | _ :: prev :: _ =>
    let pw := prev.2.weight.getD 0
    let cw := e.weight.getD 0
    (if pw < cw then [pr_message nm pw cw] else []) ++
    (if cw = pw ∧ prev.2.reps.getD 0 < e.reps.getD 0 then
      [rep_pr_message nm (prev.2.reps.getD 0) (e.reps.getD 0)]
     else [])
  | _ => []

/-- Modelled from the claim wording for C7: insights in input exercise
order, with a single generic encouragement when no exercise yields
one. -/
def insights_spec (workouts : List Workout) (exercises : List ExEntry) : List String :=
  let msgs := exercises.flatMap (exercise_insights_spec workouts)
  if msgs.isEmpty then ["Solid workout! Keep pushing."] else msgs

/-- Week pair `b` is exactly one ISO week before `a`, including the
year-boundary case (week 1 following week ≥ 51 of the previous year). -/
def isConsecPair (a b : Nat × Nat) : Bool :=
  (a.1 == b.1 && a.2 - b.2 == 1) || (a.1 - b.1 == 1 && a.2 == 1 && 51 ≤ b.2)

/-- Streak length of a descending week-pair list, phrased as in the
claim: one for the most recent week plus the number of successive
adjacent pairs that are consecutive, stopping at the first gap. -/
def streak_from_spec : List (Nat × Nat) → Nat
  | [] => 0
  | p :: rest =>
    1 + (((p :: rest).zip rest).takeWhile (fun pq => isConsecPair pq.1 pq.2)).length

/-- Modelled from the claim wording for C3 (amended to the code's pair
construction): map each workout date to a (calendar year, ISO week)
pair, deduplicate, sort descending, and count the streak from the most
recent week. -/
def consecutive_weeks_spec (workouts : List Workout) : Nat :=
  if workouts.isEmpty then 0
  else streak_from_spec (sortPairsDesc ((workouts.map (fun w => weekPair w.date)).dedup))

/-- The `(ISO year, ISO week)` pair named by claim C3 (Python
`date.isocalendar()[:2]`), unlike the code's `(date.year, ISO week)`. -/
def weekPairIso (d : Date) : Nat × Nat := (isoYear d, isoWeek d)

/-- Modelled from the claim wording for C3 as frozen: the same
deduplicate/sort/streak pipeline, but over `(ISO year, ISO week-number)`
pairs. -/
def consecutive_weeks_iso_claim (workouts : List Workout) : Nat :=
  if workouts.isEmpty then 0
  else
    match sortPairsDesc ((workouts.map (fun w => weekPairIso w.date)).dedup) with
    | [] => 1
    | p :: rest => countStreak p rest

/-- A workout on a given date with no exercises (used by the concrete
calendar tests). -/
def dateOnlyWorkout (y m d : Nat) : Workout :=
  { date := { year := y, month := m, day := d }, exercises := [] }

/-! ### Default elements and concrete sample data used by the closed
instantiations of the theorems below. -/

/-- Placeholder exercise record (never a real table entry). -/
def exRecordDefault : ExRecord :=
  { name := "", primary_muscles := [], type := "", equipment := [],
    instructions := [], form_cues := [], alternatives := [] }

/-- Placeholder exercise slot. -/
def wexDefault : WExercise := { name := "", type := "", muscle := "" }

/-- Placeholder session. -/
def wsessionDefault : WSession := { name := "", exercises := [] }

/-- Placeholder generated week. -/
def weekDefault : Week := { week_number := 0, sessions := [], notes := "" }

/-- Four squat sessions at weights 200, 202, 198, 201 (range 4). -/
def plateauSampleLog : List Workout := [
  { date := { year := 2025, month := 1, day := 1 },
    exercises := [{ exercise := some "Squat", weight := some 200 }] },
  { date := { year := 2025, month := 1, day := 3 },
    exercises := [{ exercise := some "Squat", weight := some 202 }] },
  { date := { year := 2025, month := 1, day := 5 },
    exercises := [{ exercise := some "Squat", weight := some 198 }] },
  { date := { year := 2025, month := 1, day := 7 },
    exercises := [{ exercise := some "Squat", weight := some 201 }] }]

/-- A log whose only entry for `Plank` has no `weight` key (defaulting
to 0), for the zero-weight report instantiation. -/
def zeroWeightSampleLog : List Workout := [
  { date := { year := 2025, month := 2, day := 1 },
    exercises := [{ exercise := some "Plank", sets := some 3, reps := some 1 }] }]

/-- The report produced for `Plank` on `zeroWeightSampleLog`. -/
def zeroWeightReport : ExerciseReport :=
  { total_sessions := 1,
    starting_weight := 0,
    current_weight := 0,
    max_weight := 0,
    weight_gain := 0,
    trend := "stable",
    history := [{ date := { year := 2025, month := 2, day := 1 },
                  weight := 0, reps := 1, sets := 3 }] }

/-! ## Helper lemmas -/

/-- A key different from every key of the association list is absent. -/
theorem dictGet_eq_none_of_ne {α : Type} (m : List (String × α)) (k : String)
    (h : ∀ kv ∈ m, k ≠ kv.1) : dictGet m k = none := by
  induction m with
  | nil => rfl
  | cons kv rest ih =>
    unfold dictGet
    rw [if_neg fun he => h kv (List.mem_cons_self _ _) he.symm]
    exact ih fun x hx => h x (List.mem_cons_of_mem _ hx)

/-! ## Claim theorems -/

/-- C1: the claim says `generate_plan` never mutates the stored reference
template.  In the source no copy is made: the adjustment helpers rewrite
the session and exercise dicts of the very object stored in
`self.splits`.  Concretely, a single beginner upper/lower call truncates
the stored Upper A/Upper B sessions from 7 to 5 exercises, and a second
call — now requesting `advanced`, which should leave sessions at full
length — still produces the truncated plan. -/
theorem C1_generate_plan_mutates_stored_template :
    (((dictGet init_splits "upper_lower").getD empty_template).sessions.map
      (fun s => s.exercises.length)) = [7, 5, 7, 5] ∧
    (((dictGet (generate_plan init_splits "upper_lower" "beginner" "muscle_building"
        "full_gym" 1 []).2 "upper_lower").getD empty_template).sessions.map
      (fun s => s.exercises.length)) = [5, 5, 5, 5] ∧
    ((generate_plan (generate_plan init_splits "upper_lower" "beginner" "muscle_building"
        "full_gym" 1 []).2 "upper_lower" "advanced" "muscle_building" "full_gym" 1
        []).1.weeks.map (fun w => w.sessions.map (fun s => s.exercises.length))) =
      [[5, 5, 5, 5]] := by
  refine ⟨by decide, by decide, by decide⟩

/-- C2 counterexample: the normalization does NOT collapse consecutive
separators, so the extra-whitespace variant `bench  press` (two spaces)
of the known key `bench_press` normalizes to `bench__press`, matches no
key exactly or by substring, and returns the not-found marker instead of
the canonical record. -/
theorem C2_counterexample_consecutive_separators :
    get_exercise "bench  press" ≠ get_exercise "bench press" ∧
    get_exercise "bench  press" = none ∧
    (get_exercise "bench press").isSome = true := by
  refine ⟨by decide, by decide, by decide⟩

/-- C2 (amended): lookup lowercases and replaces each space and each
hyphen one-for-one by an underscore (no collapsing); every name whose
normalization is exactly a table key returns that key's record, and a
name matching no key exactly or by substring returns the not-found
marker (`none`) and never throws. -/
theorem C2_lookup_normalized_amended (name : String) :
    (∀ r : ExRecord, dictGet exercise_db (normalize_name name) = some r →
      get_exercise name = some r) ∧
    ((∀ kv ∈ exercise_db, normalize_name name ≠ kv.1 ∧
        strIncludes kv.1 (normalize_name name) = false ∧
        strIncludes (normalize_name name) kv.1 = false) →
      get_exercise name = none) := by
  constructor
  · intro r h
    unfold get_exercise
    rw [h]
  · intro h
    unfold get_exercise
    rw [dictGet_eq_none_of_ne _ _ fun kv hkv => (h kv hkv).1]
    have hfind : exercise_db.find? (fun kv =>
        strIncludes kv.1 (normalize_name name) || strIncludes (normalize_name name) kv.1)
        = none := by
      rw [List.find?_eq_none]
      intro kv hkv
      rw [(h kv hkv).2.1, (h kv hkv).2.2]
      decide
    rw [hfind]

/-- C2 witness: the hyphen variant `Bench-Press` resolves to the
canonical `bench_press` record, and an unknown name resolves to the
not-found marker. -/
theorem C2_lookup_witness :
    get_exercise "Bench-Press" =
      some ((dictGet exercise_db "bench_press").getD exRecordDefault) ∧
    get_exercise "qwzx" = none :=
  ⟨(C2_lookup_normalized_amended "Bench-Press").1 _ (by decide),
   (C2_lookup_normalized_amended "qwzx").2 (by decide)⟩

/-- C6: for every exercise name, the equipment-filtered alternatives are
an order-preserving sublist of the general alternatives, every element
contains `dumbbell`, `bodyweight` or `band` case-insensitively, and when
no general alternative matches those keywords the result is the empty
list rather than the unfiltered list. -/
theorem C6_alternatives_equipment_filter (name : String) :
    (get_alternatives name "equipment").Sublist (get_alternatives name "general") ∧
    (∀ a ∈ get_alternatives name "equipment", equipment_match a = true) ∧
    ((∀ a ∈ get_alternatives name "general", equipment_match a = false) →
      get_alternatives name "equipment" = []) := by
  cases h : get_exercise name with
  | none => simp [get_alternatives, h]
  | some ex =>
    simp only [get_alternatives, h]
    rw [if_pos trivial, if_neg (by decide : ¬("general" = "equipment"))]
    refine ⟨List.filter_sublist _, ?_, ?_⟩
    · intro a ha
      exact (List.mem_filter.mp ha).2
    · intro h
      rw [List.filter_eq_nil_iff]
      intro a ha
      rw [h a ha]
      decide

/-- C6 witness: `lat_pulldown` has general alternatives but none of them
matches an equipment keyword, so the equipment list is empty. -/
theorem C6_alternatives_witness :
    get_alternatives "lat pulldown" "equipment" = [] ∧
    get_alternatives "lat pulldown" "general" ≠ [] :=
  ⟨(C6_alternatives_equipment_filter "lat pulldown").2.2 (by decide), by decide⟩

/-- C8: the week note is chosen by first-match-wins precedence — week 1
gives the form-focus message; otherwise the final week gives the
push-and-consider-deload message; otherwise a week divisible by 4 gives
the deload-suggestion message; otherwise the progressive-overload
message. -/
theorem C8_week_notes_precedence (week_num total_weeks : Nat) :
    (week_num = 1 →
      get_week_notes week_num total_weeks =
        "Focus on form. Use moderate weights to learn movements.") ∧
    (week_num ≠ 1 → week_num = total_weeks →
      get_week_notes week_num total_weeks =
        "Final week! Push hard but consider a deload after this.") ∧
    (week_num ≠ 1 → week_num ≠ total_weeks → week_num % 4 = 0 →
      get_week_notes week_num total_weeks =
        "Deload week if needed. Reduce volume by 40%.") ∧
    (week_num ≠ 1 → week_num ≠ total_weeks → week_num % 4 ≠ 0 →
      get_week_notes week_num total_weeks =
        "Progressive overload. Try to beat last week's numbers.") := by
  unfold get_week_notes
  refine ⟨fun h1 => ?_, fun h1 h2 => ?_, fun h1 h2 h3 => ?_, fun h1 h2 h3 => ?_⟩
  · rw [if_pos h1]
  · rw [if_neg h1, if_pos h2]
  · rw [if_neg h1, if_neg h2, if_pos h3]
  · rw [if_neg h1, if_neg h2, if_neg h3]

/-- C8 witness: week 4 of a 4-week plan is both the final week and
divisible by 4; the final-week branch wins. -/
theorem C8_week_notes_witness :
    get_week_notes 4 4 = "Final week! Push hard but consider a deload after this." :=
  (C8_week_notes_precedence 4 4).2.1 (by decide) rfl

/-- C5: with fewer than 4 matching sessions `detect_plateau` reports
insufficient data; with at least 4 it takes the last 4 sessions'
weights, flags a plateau iff their max minus min is at most 5, and
returns the fixed six-recommendation list exactly when flagged and the
positive message exactly when not. -/
theorem C5_detect_plateau_spec (workouts : List Workout) (exercise_name : String) :
    ((get_exercise_history workouts exercise_name).length < 4 →
      detect_plateau workouts exercise_name =
        { plateau_detected := false,
          message := some "Not enough data to detect plateau (need 4+ sessions)" }) ∧
    (4 ≤ (get_exercise_history workouts exercise_name).length →
      ((detect_plateau workouts exercise_name).plateau_detected = true ↔
        maxIntList (((get_exercise_history workouts exercise_name).drop
            ((get_exercise_history workouts exercise_name).length - 4)).map
          (fun h => h.2.weight.getD 0)) -
        minIntList (((get_exercise_history workouts exercise_name).drop
            ((get_exercise_history workouts exercise_name).length - 4)).map
          (fun h => h.2.weight.getD 0)) ≤ 5) ∧
      ((detect_plateau workouts exercise_name).plateau_detected = true →
        (detect_plateau workouts exercise_name).recommendations =
          some plateau_recommendations ∧
        (detect_plateau workouts exercise_name).message = none) ∧
      ((detect_plateau workouts exercise_name).plateau_detected = false →
        (detect_plateau workouts exercise_name).message =
          some "No plateau detected. Keep progressing!" ∧
        (detect_plateau workouts exercise_name).recommendations = none)) := by
  constructor
  · intro hlt
    unfold detect_plateau
    rw [if_pos hlt]
  · intro hge
    have hnl := Nat.not_lt.mpr hge
    unfold detect_plateau
    rw [if_neg hnl]
    dsimp only
    refine ⟨decide_eq_true_iff, fun hp => ?_, fun hp => ?_⟩
    · rw [if_pos hp, if_pos hp]
      exact ⟨rfl, rfl⟩
    · rw [Bool.eq_false_iff] at hp
      rw [if_neg hp, if_neg hp]
      exact ⟨rfl, rfl⟩

/-- C5 witness: four squat sessions at 200/202/198/201 (range 4) flag a
plateau with the fixed recommendation list. -/
theorem C5_detect_plateau_witness :
    (detect_plateau plateauSampleLog "Squat").plateau_detected = true ∧
    (detect_plateau plateauSampleLog "Squat").recommendations =
      some plateau_recommendations := by
  have h := (C5_detect_plateau_spec plateauSampleLog "Squat").2 (by decide)
  have hp : (detect_plateau plateauSampleLog "Squat").plateau_detected = true :=
    h.1.mpr (by decide)
  exact ⟨hp, (h.2.1 hp).1⟩

/-- C10: in the per-exercise report, zero (or absent, defaulting to 0)
weights are excluded from the weight series used for the starting
weight, current weight, max weight, weight delta and trend — all five
statistics are computed from the nonzero-filtered weight sequence of the
matched entries, so an exercise logged only at weight 0 reports
starting/current/max weight 0, weight gain 0 and trend `stable` — while
such entries still count toward `total_sessions` and appear in the
returned history. -/
theorem C10_zero_weight_excluded (exercise_name : String) (workouts : List Workout)
    (r : ExerciseReport)
    (h : get_exercise_report exercise_name workouts = some r) :
    r.total_sessions = (collect_report_entries exercise_name workouts).length ∧
    r.history = collect_report_entries exercise_name workouts ∧
    r.starting_weight =
      ((((collect_report_entries exercise_name workouts).map (fun e => e.weight)).filter
        (fun w => w ≠ 0)).headD 0) ∧
    r.current_weight =
      ((((collect_report_entries exercise_name workouts).map (fun e => e.weight)).filter
        (fun w => w ≠ 0)).getLastD 0) ∧
    r.max_weight = maxIntList
      (((collect_report_entries exercise_name workouts).map (fun e => e.weight)).filter
        (fun w => w ≠ 0)) ∧
    r.weight_gain =
      (if 2 ≤ ((((collect_report_entries exercise_name workouts).map
            (fun e => e.weight)).filter (fun w => w ≠ 0)).length) then
        ((((collect_report_entries exercise_name workouts).map (fun e => e.weight)).filter
          (fun w => w ≠ 0)).getLastD 0) -
        ((((collect_report_entries exercise_name workouts).map (fun e => e.weight)).filter
          (fun w => w ≠ 0)).headD 0)
      else 0) ∧
    r.trend =
      (if 2 ≤ ((((collect_report_entries exercise_name workouts).map
            (fun e => e.weight)).filter (fun w => w ≠ 0)).length) ∧
          ((((collect_report_entries exercise_name workouts).map (fun e => e.weight)).filter
            (fun w => w ≠ 0)).headD 0) <
          ((((collect_report_entries exercise_name workouts).map (fun e => e.weight)).filter
            (fun w => w ≠ 0)).getLastD 0) then "improving"
      else "stable") ∧
    ((∀ e ∈ collect_report_entries exercise_name workouts, e.weight = 0) →
      r.starting_weight = 0 ∧ r.current_weight = 0 ∧ r.max_weight = 0 ∧
      r.weight_gain = 0 ∧ r.trend = "stable") := by
  unfold get_exercise_report at h
  by_cases he : (collect_report_entries exercise_name workouts).isEmpty
  · rw [if_pos he] at h
    exact absurd h (by simp)
  · rw [if_neg he] at h
    have hr := (Option.some.injEq _ _).mp h
    have hz : (∀ e ∈ collect_report_entries exercise_name workouts, e.weight = 0) →
        ((collect_report_entries exercise_name workouts).map (fun e => e.weight)).filter
          (fun w => w ≠ 0) = [] := by
      intro hall
      rw [List.filter_eq_nil_iff]
      intro w hw
      obtain ⟨e, he', rfl⟩ := List.mem_map.mp hw
      simp [hall e he']
    refine ⟨by rw [← hr], by rw [← hr], by rw [← hr], by rw [← hr], by rw [← hr],
      by rw [← hr], by rw [← hr], fun hall => ?_⟩
    have h0 := hz hall
    rw [← hr]
    simp only [h0]
    refine ⟨rfl, rfl, rfl, ?_, ?_⟩
    · rw [if_neg (by simp)]
    · rw [if_neg (by simp)]

/-- C10 witness: a log whose single `Plank` entry has no weight key
reports one total session, weight statistics 0 and trend `stable`, with
the entry present in the history. -/
theorem C10_zero_weight_witness :
    get_exercise_report "Plank" zeroWeightSampleLog = some zeroWeightReport ∧
    zeroWeightReport.total_sessions = 1 ∧
    zeroWeightReport.starting_weight = 0 ∧ zeroWeightReport.current_weight = 0 ∧
    zeroWeightReport.max_weight = 0 ∧ zeroWeightReport.weight_gain = 0 ∧
    zeroWeightReport.trend = "stable" := by
  have hc := C10_zero_weight_excluded "Plank" zeroWeightSampleLog zeroWeightReport
    (by decide)
  have hz := hc.2.2.2.2.2.2.2 (by decide)
  refine ⟨by decide, ?_, hz.1, hz.2.1, hz.2.2.1, hz.2.2.2.1, hz.2.2.2.2⟩
  rw [hc.1]
  decide

/-- C9: the workout log is append-only.  `log_workout` produces a log
one longer, leaves every existing position unchanged and in order, and
places the new entry at the end; every non-logging operation (report,
plateau detection, consecutive weeks, fatigue estimate, personal
records) returns the log unchanged in its state-passing embedding,
matching the source methods, which never reassign or mutate
`self.workouts`. -/
theorem C9_log_append_only (workouts : List Workout) (exercises : List ExEntry)
    (d : Date) (notes : Option String) (now : Date) (exercise : Option String)
    (period : String) (exercise_name : String) :
    (log_workout workouts exercises d notes).1.length = workouts.length + 1 ∧
    (∀ i, i < workouts.length →
      (log_workout workouts exercises d notes).1.get? i = workouts.get? i) ∧
    (log_workout workouts exercises d notes).1.get? workouts.length =
      some { date := d, exercises := exercises, notes := notes } ∧
    (get_report_st now exercise period workouts).2 = workouts ∧
    (detect_plateau_st exercise_name workouts).2 = workouts ∧
    (get_consecutive_weeks_st workouts).2 = workouts ∧
    (estimate_fatigue_st now workouts).2 = workouts ∧
    (get_personal_records_st workouts).2 = workouts := by
  have h1 : (log_workout workouts exercises d notes).1 =
      workouts ++ [{ date := d, exercises := exercises, notes := notes }] := rfl
  refine ⟨?_, ?_, ?_, rfl, rfl, rfl, rfl, rfl⟩
  · rw [h1, List.length_append, List.length_singleton]
  · intro i hi
    rw [h1]
    simp only [List.get?_eq_getElem?]
    rw [List.getElem?_append_left hi]
  · rw [h1]
    simp only [List.get?_eq_getElem?]
    rw [List.getElem?_concat_length]

/-- C9 witness: appending to a one-entry log keeps position 0 intact and
places the new workout at position 1. -/
theorem C9_log_append_only_witness :
    (log_workout [dateOnlyWorkout 2025 1 6] [] { year := 2025, month := 1, day := 8 }
      none).1.get? 0 = some (dateOnlyWorkout 2025 1 6) ∧
    (log_workout [dateOnlyWorkout 2025 1 6] [] { year := 2025, month := 1, day := 8 }
      none).1.get? 1 =
      some { date := { year := 2025, month := 1, day := 8 }, exercises := [],
             notes := none } := by
  have h := C9_log_append_only [dateOnlyWorkout 2025 1 6] [] { year := 2025, month := 1, day := 8 }
    none { year := 2025, month := 1, day := 8 } none "month" "Squat"
  exact ⟨(h.2.1 0 (by decide)).trans (by decide), h.2.2.1⟩

/-- C4: in every generated plan (for any generator state, split,
experience, goal, equipment, limitations and week count), every slot
tagged `compound` carries exactly the sets, reps and rest of the scheme
for the requested goal — the muscle-building scheme (3 sets, `8-12`
reps, `60-90 sec` rest) when the goal is unknown — and every
non-compound slot carries the scheme's set count with reps forced to
`10-15` and rest forced to `60 sec`. -/
theorem C4_rep_scheme_applied (splits : List (String × Template))
    (split_type experience_level goal equipment : String) (weeks : Nat)
    (limitations : List String) (wk : Week) (s : WSession) (e : WExercise)
    (hw : wk ∈ (generate_plan splits split_type experience_level goal equipment weeks
      limitations).1.weeks)
    (hs : s ∈ wk.sessions) (he : e ∈ s.exercises) :
    (goal ∉ ["strength", "muscle_building", "fat_loss", "endurance"] →
      rep_scheme_for goal = { sets := 3, reps := "8-12", rest := "60-90 sec" }) ∧
    (e.type = "compound" →
      e.sets = some (rep_scheme_for goal).sets ∧
      e.reps = some (rep_scheme_for goal).reps ∧
      e.rest = some (rep_scheme_for goal).rest) ∧
    (e.type ≠ "compound" →
      e.sets = some (rep_scheme_for goal).sets ∧
      e.reps = some "10-15" ∧ e.rest = some "60 sec") := by
  refine ⟨fun hg => ?_, ?_⟩
  · simp only [List.mem_cons, List.not_mem_nil, or_false, not_or] at hg
    have h1 : ¬("strength" = goal) := fun h' => hg.1 h'.symm
    have h2 : ¬("muscle_building" = goal) := fun h' => hg.2.1 h'.symm
    have h3 : ¬("fat_loss" = goal) := fun h' => hg.2.2.1 h'.symm
    have h4 : ¬("endurance" = goal) := fun h' => hg.2.2.2 h'.symm
    simp [rep_scheme_for, rep_schemes, dictGet, h1, h2, h3, h4]
  · simp only [generate_plan, List.mem_map] at hw
    obtain ⟨i, _, rfl⟩ := hw
    simp only [apply_rep_scheme, List.mem_map] at hs
    obtain ⟨s0, _, rfl⟩ := hs
    simp only [List.mem_map] at he
    obtain ⟨e0, _, rfl⟩ := he
    by_cases h0 : e0.type = "compound" <;>
      simp [h0]

/-- C4 witness: the first exercise (Squat, compound) of a one-week
full-body strength plan carries the strength scheme: 4 sets, `4-6`
reps, `3-5 min` rest. -/
theorem C4_rep_scheme_witness :
    ((((generate_plan init_splits "full_body" "advanced" "strength" "full_gym" 1
        []).1.weeks.headD weekDefault).sessions.headD wsessionDefault).exercises.headD
      wexDefault).sets = some 4 ∧
    ((((generate_plan init_splits "full_body" "advanced" "strength" "full_gym" 1
        []).1.weeks.headD weekDefault).sessions.headD wsessionDefault).exercises.headD
      wexDefault).reps = some "4-6" ∧
    ((((generate_plan init_splits "full_body" "advanced" "strength" "full_gym" 1
        []).1.weeks.headD weekDefault).sessions.headD wsessionDefault).exercises.headD
      wexDefault).rest = some "3-5 min" := by
  have h := C4_rep_scheme_applied init_splits "full_body" "advanced" "strength" "full_gym" 1 []
    ((generate_plan init_splits "full_body" "advanced" "strength" "full_gym" 1
      []).1.weeks.headD weekDefault)
    (((generate_plan init_splits "full_body" "advanced" "strength" "full_gym" 1
      []).1.weeks.headD weekDefault).sessions.headD wsessionDefault)
    ((((generate_plan init_splits "full_body" "advanced" "strength" "full_gym" 1
      []).1.weeks.headD weekDefault).sessions.headD wsessionDefault).exercises.headD
      wexDefault)
    (by decide) (by decide) (by decide)
  have h2 := h.2.1 (by decide)
  exact ⟨h2.1.trans (by decide), h2.2.1.trans (by decide), h2.2.2.trans (by decide)⟩

/-- Indexing two positions before the end of `u ++ [x, y]` yields `x`. -/
theorem getD_append_two {α : Type} (u : List α) (x y : α) (d : α) :
    (u ++ [x, y]).getD u.length d = x := by
  induction u with
  | nil => rfl
  | cons a t ih => simpa using ih

/-- The loop body of `_generate_workout_insights` agrees with the
claim-side per-exercise insight function: `history[-2]` is the
second-most-recent matching data point. -/
theorem exercise_insights_eq (workouts : List Workout) (e : ExEntry) :
    exercise_insights workouts e = exercise_insights_spec workouts e := by
  unfold exercise_insights exercise_insights_spec
  dsimp only
  cases hrev : (get_exercise_history workouts (entryName e)).reverse with
  | nil =>
    have h0 : get_exercise_history workouts (entryName e) = [] := by
      rw [← List.reverse_reverse (get_exercise_history workouts (entryName e)), hrev]
      rfl
    rw [h0]
    rfl
  | cons a rest =>
    cases rest with
    | nil =>
      have h0 : get_exercise_history workouts (entryName e) = [a] := by
        rw [← List.reverse_reverse (get_exercise_history workouts (entryName e)), hrev]
        rfl
      rw [h0]
      rfl
    | cons b t =>
      have h0 : get_exercise_history workouts (entryName e) = t.reverse ++ [b, a] := by
        rw [← List.reverse_reverse (get_exercise_history workouts (entryName e)), hrev]
        simp
      rw [h0]
      dsimp only
      have hlen : (t.reverse ++ [b, a]).length = t.length + 2 := by simp
      rw [if_pos (by rw [hlen]; omega)]
      have hidx : (t.reverse ++ [b, a]).length - 2 = t.reverse.length := by
        rw [hlen, List.length_reverse]
        omega
      rw [hidx, getD_append_two]
      rfl

/-- C7: the insight list returned by `log_workout` contains, for each
exercise of the new entry (in input order) whose case-insensitive
history in the extended log has at least two data points, a PR message
exactly when the new weight strictly exceeds the previous one and a
rep-PR message exactly when the weights are equal and the rep count
strictly grows, and collapses to the single generic encouragement when
no exercise yields an insight. -/
theorem C7_insights_characterization (workouts : List Workout) (exercises : List ExEntry)
    (d : Date) (notes : Option String) :
    (log_workout workouts exercises d notes).2.insights =
      insights_spec (workouts ++ [{ date := d, exercises := exercises, notes := notes }])
        exercises := by
  have hfun : exercise_insights
        (workouts ++ [{ date := d, exercises := exercises, notes := notes }]) =
      exercise_insights_spec
        (workouts ++ [{ date := d, exercises := exercises, notes := notes }]) :=
    funext (exercise_insights_eq _)
  show generate_workout_insights
      (workouts ++ [{ date := d, exercises := exercises, notes := notes }]) exercises = _
  unfold generate_workout_insights insights_spec
  rw [hfun]

/-- Descending insertion never produces the empty list. -/
theorem insertPairDesc_ne_nil (a : Nat × Nat) (l : List (Nat × Nat)) :
    insertPairDesc a l ≠ [] := by
  cases l with
  | nil => simp [insertPairDesc]
  | cons b t =>
    unfold insertPairDesc
    split <;> simp

/-- Sorting a nonempty pair list yields a nonempty list. -/
theorem sortPairsDesc_ne_nil (l : List (Nat × Nat)) (h : l ≠ []) :
    sortPairsDesc l ≠ [] := by
  cases l with
  | nil => exact absurd rfl h
  | cons a t => exact insertPairDesc_ne_nil a (sortPairsDesc t)

/-- The boolean week-consecutiveness test agrees with the two branch
conditions of the streak loop. -/
theorem isConsecPair_iff (a b : Nat × Nat) :
    isConsecPair a b = true ↔
      ((a.1 = b.1 ∧ a.2 - b.2 = 1) ∨ (a.1 - b.1 = 1 ∧ a.2 = 1 ∧ 51 ≤ b.2)) := by
  unfold isConsecPair
  simp [Bool.or_eq_true, Bool.and_eq_true, beq_iff_eq, decide_eq_true_eq, and_assoc]

/-- The streak loop counts one plus the longest all-consecutive prefix
of adjacent pairs. -/
theorem countStreak_eq_takeWhile (p : Nat × Nat) (rest : List (Nat × Nat)) :
    countStreak p rest =
      1 + (((p :: rest).zip rest).takeWhile (fun pq => isConsecPair pq.1 pq.2)).length := by
  induction rest generalizing p with
  | nil => rfl
  | cons c t ih =>
    unfold countStreak
    have hzip : (p :: c :: t).zip (c :: t) = (p, c) :: (c :: t).zip t := rfl
    rw [hzip, List.takeWhile_cons]
    by_cases hA : p.1 = c.1 ∧ p.2 - c.2 = 1
    · rw [if_pos hA, if_pos (by exact (isConsecPair_iff p c).mpr (Or.inl hA))]
      rw [ih c]
      simp [Nat.add_comm, Nat.add_assoc]
    · rw [if_neg hA]
      by_cases hB : p.1 - c.1 = 1 ∧ p.2 = 1 ∧ 51 ≤ c.2
      · rw [if_pos hB, if_pos (by exact (isConsecPair_iff p c).mpr (Or.inr hB))]
        rw [ih c]
        simp [Nat.add_comm, Nat.add_assoc]
      · rw [if_neg hB]
        have hcons : isConsecPair p c = false := by
          rw [Bool.eq_false_iff]
          intro hc
          rcases (isConsecPair_iff p c).mp hc with h | h
          · exact hA h
          · exact hB h
        simp [hcons]

/-- C3 counterexample: the code pairs the CALENDAR year `date.year`
with the ISO week number, not the ISO year the claim names.  Workouts on
2024-12-23 (ISO week 52 of 2024) and 2024-12-30 (ISO week 1 of 2025, but
calendar year 2024) form pairs (2024, 52) and (2024, 1), which the code
treats as a gap and counts 1, whereas the claimed (ISO year, ISO week)
pairs (2024, 52) and (2025, 1) are consecutive across the year boundary
and count 2. -/
theorem C3_counterexample_calendar_year :
    get_consecutive_weeks [dateOnlyWorkout 2024 12 23, dateOnlyWorkout 2024 12 30] = 1 ∧
    consecutive_weeks_iso_claim
      [dateOnlyWorkout 2024 12 23, dateOnlyWorkout 2024 12 30] = 2 ∧
    weekPair { year := 2024, month := 12, day := 30 } = (2024, 1) ∧
    weekPairIso { year := 2024, month := 12, day := 30 } = (2025, 1) := by
  refine ⟨by decide, by decide, by decide, by decide⟩

/-- C3 (amended): `get_consecutive_weeks` maps every workout date to a
(calendar year, ISO week-number) pair, deduplicates and sorts descending,
and counts the streak from the most recent week, incrementing while each
prior pair is exactly one week earlier (same year with week one smaller,
or previous year with the later week 1 and the earlier week ≥ 51) and
stopping at the first gap; an empty log yields 0. -/
theorem C3_consecutive_weeks_amended (workouts : List Workout) :
    get_consecutive_weeks workouts = consecutive_weeks_spec workouts := by
  unfold get_consecutive_weeks consecutive_weeks_spec
  by_cases h : workouts.isEmpty
  · rw [if_pos h, if_pos h]
  · rw [if_neg h, if_neg h]
    dsimp only
    have hne : (workouts.map (fun w => weekPair w.date)).dedup ≠ [] := by
      rw [ne_eq, List.dedup_eq_nil, List.map_eq_nil_iff]
      intro hempty
      rw [hempty] at h
      exact h rfl
    cases hs : sortPairsDesc ((workouts.map (fun w => weekPair w.date)).dedup) with
    | nil => exact absurd hs (sortPairsDesc_ne_nil _ hne)
    | cons p rest =>
      unfold streak_from_spec
      exact countStreak_eq_takeWhile p rest
